import Mathlib

/-!
Shallow embedding of the cafeteria bot (cmbot-railway).

The repository contains two parallel implementations of the same command set:
a PostgreSQL variant (`coreCMfunc05.py` over the schema of `db.py`) and a
Firestore variant (`main.py`, with an older sibling `coreCMfunc04.py`).
Both are embedded here.

Conventions:
* money is modelled in integer cents (the SQL schema declares NUMERIC(10,2);
  the float arithmetic question is treated separately);
* timestamps (`NOW()` / `firestore.SERVER_TIMESTAMP`) are `Nat` ticks passed
  in as a `now` parameter;
* chat replies are an inductive `Reply`, one constructor per distinct
  user-visible outcome of a handler.
-/

namespace CMBot

/-- The in-code menu (`MENU` in `main.py` / `coreCMfunc05.py` /
`coreCMfunc04.py`, identical in all three): item code to (display name,
unit price in cents). -/
def menuLookup : String → Option (String × Int)
  | "coffee"   => some ("Coffee", 250)
  | "tea"      => some ("Tea", 200)
  | "sandwich" => some ("Sandwich", 500)
  | "burger"   => some ("Burger", 800)
  | "pizza"    => some ("Pizza Slice", 450)
  | "salad"    => some ("Salad", 600)
  | "juice"    => some ("Fresh Juice", 350)
  | "cake"     => some ("Cake Slice", 400)
  | _          => none

/-- `is_cm(user_id)`: the caller is the cafeteria manager.  `CM_USER_ID` is
environment configuration, so it is a parameter `cmId` here. -/
def is_cm (cmId uid : Int) : Bool := uid == cmId

/-- Chat replies, one constructor per distinct handler outcome. -/
inductive Reply
  | managersDontOrder
  | useReceived
  | itemNotFound
  | invalidQuantity
  | invalidAmount
  | orderPlaced (qty : Int) (name : String) (total : Int)
  | paymentReported (amount : Int)
  | noPending
  | invalidNumber
  | confirmedPayment (amount : Int) (name : String)
  | notManager
  | ownOnly
  | balanceIs (ordered paid : Int)
  | summaryIs (ordered paid : Int)
deriving DecidableEq

/-! ## SQL variant (`coreCMfunc05.py` over the `db.py` schema) -/

/-- A row of the `clients` table (`db.py`). -/
structure ClientRow where
  userId : Int
  userName : String
  lastOrder : Nat
deriving DecidableEq

/-- A row of the `orders` table (`db.py`). -/
structure OrderRow where
  userId : Int
  itemCode : String
  itemName : String
  quantity : Int
  pricePerItem : Int
  totalPrice : Int
  createdAt : Nat
deriving DecidableEq

/-- A row of the `payments` table (`db.py`). -/
structure PaymentRow where
  userId : Int
  amount : Int
  confirmedByCm : Bool
  createdAt : Nat
  originalTs : Nat
deriving DecidableEq

/-- A row of the `pending_payments` table (`db.py`); `rowId` is the SERIAL
primary key used as the stable queue key. -/
structure PendingRow where
  rowId : Nat
  userId : Int
  userName : String
  amount : Int
  createdAt : Nat
deriving DecidableEq

/-- The PostgreSQL database state; `nextId` feeds the `pending_payments`
SERIAL column. -/
structure DB where
  clients : List ClientRow
  orders : List OrderRow
  payments : List PaymentRow
  pending : List PendingRow
  nextId : Nat
deriving DecidableEq

/-- The empty database produced by `init_db`. -/
def dbEmpty : DB := ⟨[], [], [], [], 1⟩

/-- `coreCMfunc05.order_command`, from the point where both arguments are
present and the quantity string parses as an integer: manager refusal, menu
lookup of the lowercased code, positivity check, then in one transaction an
upsert of `clients` (`ON CONFLICT (user_id) DO UPDATE SET last_order`) and an
insert into `orders` with `total_price = qty * price`. -/
def order05 (cmId : Int) (db : DB) (uid : Int) (uname : String)
    (code : String) (qty : Int) (now : Nat) : DB × Reply :=
  if is_cm cmId uid then (db, .managersDontOrder)
  else match menuLookup code with
    | none => (db, .itemNotFound)
    | some (iname, price) =>
      if qty ≤ 0 then (db, .invalidQuantity)
      else
        let total := qty * price
        let clients' :=
          if db.clients.any (fun c => c.userId == uid) then
            db.clients.map (fun c =>
              if c.userId == uid then { c with lastOrder := now } else c)
          else db.clients ++ [⟨uid, uname, now⟩]
        ({ db with clients := clients',
                   orders := db.orders ++ [⟨uid, code, iname, qty, price, total, now⟩] },
         .orderPlaced qty iname total)

/-- `coreCMfunc05.paid_command`, from the point where the amount string parses:
manager refusal, positivity check, then an insert into `pending_payments`. -/
def paid05 (cmId : Int) (db : DB) (uid : Int) (uname : String)
    (amt : Int) (now : Nat) : DB × Reply :=
  if is_cm cmId uid then (db, .useReceived)
  else if amt ≤ 0 then (db, .invalidAmount)
  else ({ db with pending := db.pending ++ [⟨db.nextId, uid, uname, amt, now⟩],
                  nextId := db.nextId + 1 },
        .paymentReported amt)

/-- The relation "earlier claim time" on pending rows. -/
def pendLE (a b : PendingRow) : Prop := a.createdAt ≤ b.createdAt

instance : DecidableRel pendLE := fun a b => Nat.decLe a.createdAt b.createdAt

instance : IsTotal PendingRow pendLE := ⟨fun a b => Nat.le_total a.createdAt b.createdAt⟩

instance : IsTrans PendingRow pendLE := ⟨fun _ _ _ h1 h2 => Nat.le_trans h1 h2⟩

/-- `SELECT id, user_id, user_name, amount FROM pending_payments ORDER BY
created_at` (`coreCMfunc05.received_command` / `pending_command`). -/
def pendByCreated (db : DB) : List PendingRow :=
  List.insertionSort pendLE db.pending

/-- Python list indexing: a negative index counts from the end; an index out
of `[-len, len)` raises `IndexError`, modelled as `none`. -/
def pyIndex (l : List α) (i : Int) : Option α :=
  if 0 ≤ i then l.get? i.toNat
  else if (-i).toNat ≤ l.length then l.get? (l.length - (-i).toNat) else none

/-- The listing phase of `coreCMfunc05.received_command`: the pending rows in
claim-time order, read in its own transaction. -/
def confirmSnapshot05 (db : DB) : List PendingRow := pendByCreated db

/-- The commit phase of `coreCMfunc05.received_command` with a numeric
argument: `idx = int(args[0]) - 1; pend[idx]` (Python indexing, so negative
indices reach back from the end), then in a later transaction an `INSERT INTO
payments (user_id, amount, confirmed_by_cm, original_ts) VALUES (uid, amt,
true, NOW())` followed by `DELETE FROM pending_payments WHERE id = pid`
(a delete of an already-removed id silently affects zero rows). -/
def confirmCommit05 (db : DB) (snap : List PendingRow) (pos : Int) (now : Nat) :
    DB × Reply :=
  if snap.isEmpty then (db, .noPending)
  else match pyIndex snap (pos - 1) with
    | none => (db, .invalidNumber)
    | some row =>
      ({ db with
          payments := db.payments ++ [⟨row.userId, row.amount, true, now, now⟩],
          pending := db.pending.filter (fun r => r.rowId ≠ row.rowId) },
       .confirmedPayment row.amount row.userName)

/-- `coreCMfunc05.received_command` with a numeric argument, run without
interference: snapshot and commit against the same state. -/
def received05 (cmId : Int) (db : DB) (uid : Int) (pos : Int) (now : Nat) :
    DB × Reply :=
  if ¬ is_cm cmId uid then (db, .notManager)
  else confirmCommit05 db (confirmSnapshot05 db) pos now

/-- The row multiset produced by `coreCMfunc05.balance_command`'s query
`FROM orders o LEFT JOIN payments p ON p.user_id = o.user_id
WHERE o.user_id = u`. -/
def joinRows05 (db : DB) (u : Int) : List (OrderRow × Option PaymentRow) :=
  (db.orders.filter (fun o => o.userId == u)).flatMap (fun o =>
    let ps := db.payments.filter (fun p => p.userId == o.userId)
    if ps.isEmpty then [(o, none)] else ps.map (fun p => (o, some p)))

/-- `COALESCE(SUM(total_price), 0)` over the joined rows. -/
def sumOrdered05 (db : DB) (u : Int) : Int :=
  (joinRows05 db u).foldl (fun acc r => acc + r.1.totalPrice) 0

/-- `COALESCE(SUM(amount), 0)` over the joined rows (SQL `SUM` skips NULLs). -/
def sumPaid05 (db : DB) (u : Int) : Int :=
  (joinRows05 db u).foldl
    (fun acc r => acc + (match r.2 with | some p => p.amount | none => 0)) 0

/-- The balance reported by `coreCMfunc05.balance_command`. -/
def balance05 (db : DB) (u : Int) : Int := sumOrdered05 db u - sumPaid05 db u

/-- Modelled from the spec: `getBalance(c) = sum(lineTotal for c's orders) −
sum(amount for c's confirmed payments)`, stated directly over the ledger
rows for comparison with the implementations. -/
def specBalance (db : DB) (u : Int) : Int :=
  ((db.orders.filter (fun o => o.userId == u)).map (·.totalPrice)).sum
    - ((db.payments.filter (fun p => p.userId == u && p.confirmedByCm)).map
        (·.amount)).sum

/-- `coreCMfunc05.balance_command`'s permission/dispatch step: the manager may
pass a target id; a non-manager passing any argument is refused before the
query runs. -/
def balanceCmd05 (cmId : Int) (db : DB) (uid : Int) (args : List Int) : Reply :=
  if is_cm cmId uid && !args.isEmpty then
    match args with
    | t :: _ => .balanceIs (sumOrdered05 db t) (sumPaid05 db t)
    | [] => .balanceIs (sumOrdered05 db uid) (sumPaid05 db uid)
  else if !(is_cm cmId uid) && !args.isEmpty then .ownOnly
  else .balanceIs (sumOrdered05 db uid) (sumPaid05 db uid)

/-! ## Firestore variant (`main.py`, and the older `coreCMfunc04.py`)

A Firestore document reads back through `.to_dict()` as either its data or,
for an unreadable/corrupt document, as nothing; stored documents are therefore
`Option`-wrapped.  A collection streams in document-id order; `.add` assigns a
random auto-id, so a newly added document can land at any position of that
order — where this matters the insertion position is an explicit parameter. -/

/-- The data of a `cafeteria_clients` document. -/
structure ClientDoc where
  userId : Int
  userName : String
  lastOrder : Nat
deriving DecidableEq

/-- The data of an order document in a client's `orders` subcollection. -/
structure OrderDoc where
  userId : Int
  itemCode : String
  itemName : String
  quantity : Int
  pricePerItem : Int
  totalPrice : Int
  timestamp : Nat
deriving DecidableEq

/-- The data of a payment document in a client's `payments` subcollection
(written only by `received_command`). -/
structure PaymentDoc where
  userId : Int
  userName : String
  amount : Int
  confirmedByCm : Bool
  timestamp : Nat
  originalTimestamp : Nat
deriving DecidableEq

/-- The data of a `pending_payments` document; `docId` stands for the random
auto-id (used for the stream order and for deletion by reference), and
`statusPending` for `status == 'pending_confirmation'`. -/
structure PendingDoc where
  docId : Nat
  userId : Int
  userName : String
  amount : Int
  timestamp : Nat
  statusPending : Bool
deriving DecidableEq

/-- One path `cafeteria_clients/<pathId>` with its document data (if readable)
and its `orders` and `payments` subcollections, each in document-id order. -/
structure ClientSlot where
  pathId : Int
  data : Option ClientDoc
  orders : List (Option OrderDoc)
  payments : List (Option PaymentDoc)
deriving DecidableEq

/-- The Firestore state: the `cafeteria_clients` collection (with nested
subcollections) and the top-level `pending_payments` collection, both in
document-id order. -/
structure FS where
  clients : List ClientSlot
  pending : List (Option PendingDoc)
  nextDocId : Nat
deriving DecidableEq

/-- The empty Firestore state. -/
def fsEmpty : FS := ⟨[], [], 1⟩

/-- `get_client_ref(u)` resolves the path `cafeteria_clients/<u>`. -/
def clientSlot (fs : FS) (u : Int) : Option ClientSlot :=
  fs.clients.find? (fun s => s.pathId == u)

/-- `client_ref.collection('orders').stream()`: a nonexistent path streams an
empty subcollection. -/
def ordersOf (fs : FS) (u : Int) : List (Option OrderDoc) :=
  match clientSlot fs u with
  | some s => s.orders
  | none => []

/-- `client_ref.collection('payments').stream()`. -/
def paymentsOf (fs : FS) (u : Int) : List (Option PaymentDoc) :=
  match clientSlot fs u with
  | some s => s.payments
  | none => []

/-- Replace the slot at path `u` (creating the path if absent, as adding to a
subcollection of a nonexistent document does in Firestore). -/
def updateSlot (fs : FS) (u : Int) (f : ClientSlot → ClientSlot) : FS :=
  if fs.clients.any (fun s => s.pathId == u) then
    { fs with clients := fs.clients.map (fun s => if s.pathId == u then f s else s) }
  else
    { fs with clients := fs.clients ++ [f ⟨u, none, [], []⟩] }

/-- `client_ref.collection('orders').add(order_data)`. -/
def addOrderDoc (fs : FS) (u : Int) (od : OrderDoc) : FS :=
  updateSlot fs u (fun s => { s with orders := s.orders ++ [some od] })

/-- `client_ref.collection('payments').add(...)`. -/
def addPaymentDoc (fs : FS) (u : Int) (pd : PaymentDoc) : FS :=
  updateSlot fs u (fun s => { s with payments := s.payments ++ [some pd] })

/-- `client_ref.set({user_name, user_id, last_order}, merge=True)`: all three
fields are supplied, so the document data becomes exactly these fields. -/
def setClientDoc (fs : FS) (u : Int) (uname : String) (now : Nat) : FS :=
  updateSlot fs u (fun s => { s with data := some ⟨u, uname, now⟩ })

/-- `main.order_command` (identical in `coreCMfunc04.order_command`), from the
point where both arguments are present and the quantity parses: manager
refusal, menu lookup, positivity check, then the order document is added and
the client document upserted. -/
def orderMain (cmId : Int) (fs : FS) (uid : Int) (uname : String)
    (code : String) (qty : Int) (now : Nat) : FS × Reply :=
  if is_cm cmId uid then (fs, .managersDontOrder)
  else match menuLookup code with
    | none => (fs, .itemNotFound)
    | some (iname, price) =>
      if qty ≤ 0 then (fs, .invalidQuantity)
      else
        let total := qty * price
        let fs1 := addOrderDoc fs uid ⟨uid, code, iname, qty, price, total, now⟩
        (setClientDoc fs1 uid uname now, .orderPlaced qty iname total)

/-- `main.paid_command` (identical in `coreCMfunc04.paid_command`), from the
point where the amount parses: manager refusal, positivity check, then
`get_pending_payments_ref().add(pending_data)`.  Firestore assigns a random
auto-id, so the new document's position in document-id order is the explicit
parameter `slot`. -/
def paidMain (cmId : Int) (fs : FS) (uid : Int) (uname : String)
    (amt : Int) (now : Nat) (slot : Nat) : FS × Reply :=
  if is_cm cmId uid then (fs, .useReceived)
  else if amt ≤ 0 then (fs, .invalidAmount)
  else
    let d : PendingDoc := ⟨fs.nextDocId, uid, uname, amt, now, true⟩
    ({ fs with pending := fs.pending.take slot ++ [some d] ++ fs.pending.drop slot,
               nextDocId := fs.nextDocId + 1 },
     .paymentReported amt)

/-- The relation "earlier claim time" on pending documents. -/
def pendDocLE (a b : PendingDoc) : Prop := a.timestamp ≤ b.timestamp

instance : DecidableRel pendDocLE := fun a b => Nat.decLe a.timestamp b.timestamp

instance : IsTotal PendingDoc pendDocLE := ⟨fun a b => Nat.le_total a.timestamp b.timestamp⟩

instance : IsTrans PendingDoc pendDocLE := ⟨fun _ _ _ h1 h2 => Nat.le_trans h1 h2⟩

/-- Python's stable `list.sort(key=timestamp)`. -/
def sortByTs (l : List PendingDoc) : List PendingDoc :=
  List.insertionSort pendDocLE l

/-- `get_pending_payments_ref().where('status', '==',
'pending_confirmation').stream()`: the server-side filter drops readable
documents whose status differs; an unreadable document cannot be excluded by
its (unreadable) status and still streams. -/
def streamPendingMain (fs : FS) : List (Option PendingDoc) :=
  fs.pending.filter (fun d => (d.map (·.statusPending)).getD true)

/-- `main.pending_command`'s listing: stream all pending-confirmation
documents, skip unreadable ones (per-document try/except), sort by timestamp
ascending in Python. -/
def pendingListingMain (fs : FS) : List PendingDoc :=
  sortByTs ((streamPendingMain fs).filterMap id)

/-- `main.received_command`'s pending list: `limit(10)` applied to the
*unsorted* query stream, unreadable documents skipped, and only then the
Python sort by timestamp. -/
def receivedListingMain (fs : FS) : List PendingDoc :=
  sortByTs (((streamPendingMain fs).take 10).filterMap id)

/-- The commit phase of `main.received_command` with a numeric argument:
guard `payment_index < 0 or payment_index >= len(pending_list)`, then the
payment document is added (carrying `original_timestamp =
payment_data['timestamp']`) and the pending document deleted by reference
(deleting an already-deleted document is a silent no-op). -/
def confirmCommitMain (fs : FS) (pl : List PendingDoc) (pos : Int) (now : Nat) :
    FS × Reply :=
  if pl.isEmpty then (fs, .noPending)
  else
    let idx := pos - 1
    if idx < 0 ∨ (pl.length : Int) ≤ idx then (fs, .invalidNumber)
    else match pl.get? idx.toNat with
      | none => (fs, .invalidNumber)
      | some row =>
        let fs1 := addPaymentDoc fs row.userId
          ⟨row.userId, row.userName, row.amount, true, now, row.timestamp⟩
        ({ fs1 with pending := fs1.pending.filter (fun d =>
              match d with
              | some p => p.docId ≠ row.docId
              | none => true) },
         .confirmedPayment row.amount row.userName)

/-- `main.received_command` with a numeric argument, run without
interference: listing and commit against the same state. -/
def receivedMain (cmId : Int) (fs : FS) (uid : Int) (pos : Int) (now : Nat) :
    FS × Reply :=
  if ¬ is_cm cmId uid then (fs, .notManager)
  else confirmCommitMain fs (receivedListingMain fs) pos now

/-- `main.balance_command`'s order aggregation: every readable order document
of the client is summed, unreadable ones are skipped (per-row try/except). -/
def totalOrderedMain (fs : FS) (u : Int) : Int :=
  (ordersOf fs u).foldl
    (fun acc d => match d with | some o => acc + o.totalPrice | none => acc) 0

/-- `main.balance_command`'s payment aggregation, same skipping policy. -/
def totalPaidMain (fs : FS) (u : Int) : Int :=
  (paymentsOf fs u).foldl
    (fun acc d => match d with | some p => acc + p.amount | none => acc) 0

/-- The balance reported by `main.balance_command`. -/
def balanceMain (fs : FS) (u : Int) : Int :=
  totalOrderedMain fs u - totalPaidMain fs u

/-- `main.balance_command`'s permission/dispatch step: the manager may pass a
target id; a non-manager passing any argument is refused before any read. -/
def balanceCmdMain (cmId : Int) (fs : FS) (uid : Int) (args : List Int) : Reply :=
  if is_cm cmId uid && !args.isEmpty then
    match args with
    | t :: _ => .balanceIs (totalOrderedMain fs t) (totalPaidMain fs t)
    | [] => .balanceIs (totalOrderedMain fs uid) (totalPaidMain fs uid)
  else if !(is_cm cmId uid) && !args.isEmpty then .ownOnly
  else .balanceIs (totalOrderedMain fs uid) (totalPaidMain fs uid)

/-- The relation "later timestamp first" used by `main.summary_command`'s
descending sorts. -/
def orderDocGE (a b : OrderDoc) : Prop := b.timestamp ≤ a.timestamp

instance : DecidableRel orderDocGE := fun a b => Nat.decLe b.timestamp a.timestamp

/-- `main.summary_command`'s recent-orders list: `limit(10)` on the unsorted
stream, readable documents only, sorted by timestamp descending. -/
def summaryOrdersMain (fs : FS) (u : Int) : List OrderDoc :=
  List.insertionSort orderDocGE (((ordersOf fs u).take 10).filterMap id)

/-- The analogous relation for payment documents. -/
def paymentDocGE (a b : PaymentDoc) : Prop := b.timestamp ≤ a.timestamp

instance : DecidableRel paymentDocGE := fun a b => Nat.decLe b.timestamp a.timestamp

/-- `main.summary_command`'s recent-payments list. -/
def summaryPaymentsMain (fs : FS) (u : Int) : List PaymentDoc :=
  List.insertionSort paymentDocGE (((paymentsOf fs u).take 10).filterMap id)

/-- `main.summary_command`'s permission/dispatch step and totals (summing the
two recent-10 listings); a non-manager passing any argument is refused before
any read. -/
def summaryCmdMain (cmId : Int) (fs : FS) (uid : Int) (args : List Int) : Reply :=
  if is_cm cmId uid && !args.isEmpty then
    match args with
    | t :: _ => .summaryIs ((summaryOrdersMain fs t).map (·.totalPrice)).sum
                  ((summaryPaymentsMain fs t).map (·.amount)).sum
    | [] => .summaryIs ((summaryOrdersMain fs uid).map (·.totalPrice)).sum
             ((summaryPaymentsMain fs uid).map (·.amount)).sum
  else if !(is_cm cmId uid) && !args.isEmpty then .ownOnly
  else .summaryIs ((summaryOrdersMain fs uid).map (·.totalPrice)).sum
        ((summaryPaymentsMain fs uid).map (·.amount)).sum

/-- Increment an item's tally in the `item_sales` association (insertion order
kept, as for a Python dict). -/
def bumpItem (its : List (String × Int)) (name : String) (q : Int) :
    List (String × Int) :=
  if its.any (fun e => e.1 == name) then
    its.map (fun e => if e.1 == name then (e.1, e.2 + q) else e)
  else its ++ [(name, q)]

/-- `main.sales_command`: per-row try/except everywhere, so every unreadable
client/order/payment/pending document is skipped and the rest aggregated.
Clients whose data lacks a truthy `user_id` are skipped
(`if not client_id: continue`). Result: (totalOrdered, totalPaid,
totalPending, itemSales). -/
def salesMain (fs : FS) : Int × Int × Int × List (String × Int) :=
  let step := fun (acc : Int × Int × List (String × Int)) (slot : ClientSlot) =>
    match slot.data with
    | none => acc
    | some cdata =>
      if cdata.userId == 0 then acc
      else
        let o := (ordersOf fs cdata.userId).foldl
          (fun (a : Int × List (String × Int)) od =>
            match od with
            | none => a
            | some od' => (a.1 + od'.totalPrice, bumpItem a.2 od'.itemName od'.quantity))
          (acc.1, acc.2.2)
        let p := (paymentsOf fs cdata.userId).foldl
          (fun a pd => match pd with | none => a | some pd' => a + pd'.amount)
          acc.2.1
        (o.1, p, o.2)
  let t := fs.clients.foldl step (0, 0, [])
  let tPend := (streamPendingMain fs).foldl
    (fun a pd => match pd with | none => a | some p => a + p.amount) 0
  (t.1, t.2.1, tPend, t.2.2)

/-- `coreCMfunc04.sales_command`: the same aggregation but with *no* per-row
try/except inside the loops — an unreadable client, order, payment or pending
document raises (`None.get`), falls into the outer except, and the whole
report is replaced by an error reply, modelled as `none`. -/
def sales04 (fs : FS) : Option (Int × Int × Int × List (String × Int)) := do
  let t ← fs.clients.foldlM
    (fun (acc : Int × Int × List (String × Int)) slot => do
      let cdata ← slot.data
      let o ← (ordersOf fs cdata.userId).foldlM
        (fun (a : Int × List (String × Int)) od => do
          let od' ← od
          pure (a.1 + od'.totalPrice, bumpItem a.2 od'.itemName od'.quantity))
        (acc.1, acc.2.2)
      let p ← (paymentsOf fs cdata.userId).foldlM
        (fun a pd => do
          let pd' ← pd
          pure (a + pd'.amount))
        acc.2.1
      pure (o.1, p, o.2))
    (0, 0, [])
  let tPend ← (streamPendingMain fs).foldlM
    (fun a pd => do
      let p ← pd
      pure (a + p.amount))
    0
  pure (t.1, t.2.1, tPend, t.2.2)

/-! ## Concrete scenario states

All states below are reached by running the embedded handlers themselves,
with manager id 999.  Client 7 exists in `clients` before any pending payment
is inserted, respecting the `pending_payments.user_id REFERENCES clients`
constraint of `db.py`. -/

/-- SQL state for C1: user 7 orders coffee×1 twice ($2.50 each), reports
$2.50 paid, and the manager confirms the claim. -/
def dbC1 : DB :=
  let s1 := (order05 999 dbEmpty 7 "ann" "coffee" 1 1).1
  let s2 := (order05 999 s1 7 "ann" "coffee" 1 2).1
  let s3 := (paid05 999 s2 7 "ann" 250 3).1
  (received05 999 s3 999 1 4).1

/-- The same scenario in the Firestore variant. -/
def fsC1 : FS :=
  let s1 := (orderMain 999 fsEmpty 7 "ann" "coffee" 1 1).1
  let s2 := (orderMain 999 s1 7 "ann" "coffee" 1 2).1
  let s3 := (paidMain 999 s2 7 "ann" 250 3 0).1
  (receivedMain 999 s3 999 1 4).1

/-- SQL state with exactly one pending claim: user 7 orders coffee×2, then
reports $5.00 paid. -/
def dbC2 : DB :=
  let s1 := (order05 999 dbEmpty 7 "ann" "coffee" 2 1).1
  (paid05 999 s1 7 "ann" 500 2).1

/-- The listing both racing confirmations read before either commits. -/
def snapC2 : List PendingRow := confirmSnapshot05 dbC2

/-- The SQL state after the racing schedule: both confirmations list, then
both commit. -/
def raceResult05 : DB × Reply :=
  confirmCommit05 (confirmCommit05 dbC2 snapC2 1 10).1 snapC2 1 11

/-- The same one-claim state in the Firestore variant. -/
def fsC2 : FS :=
  let s1 := (orderMain 999 fsEmpty 7 "ann" "coffee" 2 1).1
  (paidMain 999 s1 7 "ann" 500 2 0).1

/-- The listing both racing confirmations read in the Firestore variant. -/
def plC2 : List PendingDoc := receivedListingMain fsC2

/-- The Firestore state after the racing schedule. -/
def raceResultMain : FS × Reply :=
  confirmCommitMain (confirmCommitMain fsC2 plC2 1 10).1 plC2 1 11

/-- Firestore state with eleven live claims from user 7, submitted at times
1..11.  Firestore's random auto-ids put the first-submitted claim *last* in
document-id order and the later ones progressively earlier, so the stream
order is times [2..11, 1]. -/
def fsC6 : FS :=
  (List.range 11).foldl
    (fun s k => (paidMain 999 s 7 "ann" 100 (k + 1) (if k = 0 then 0 else k - 1)).1)
    fsEmpty

/-- Modelled from the spec: the `k` oldest live claims — all
pending-confirmation claims sorted by claim time ascending, truncated to `k`. -/
def kOldestPending (fs : FS) (k : Nat) : List PendingDoc :=
  (sortByTs ((fs.pending.filterMap id).filter (·.statusPending))).take k

/-- SQL state for C7: two clients with orders, one already-confirmed payment
for client 8 (at time 4, claimed at 3), and live claims from client 7
(submitted at time 5) and client 8 (submitted at time 8). -/
def dbC7 : DB :=
  let s1 := (order05 999 dbEmpty 7 "ann" "coffee" 2 1).1
  let s2 := (order05 999 s1 8 "bob" "tea" 1 2).1
  let s3 := (paid05 999 s2 8 "bob" 300 3).1
  let s4 := (received05 999 s3 999 1 4).1
  let s5 := (paid05 999 s4 7 "ann" 500 5).1
  (paid05 999 s5 8 "bob" 200 8).1

/-- The same scenario in the Firestore variant. -/
def fsC7 : FS :=
  let s1 := (orderMain 999 fsEmpty 7 "ann" "coffee" 2 1).1
  let s2 := (orderMain 999 s1 8 "bob" "tea" 1 2).1
  let s3 := (paidMain 999 s2 8 "bob" 300 3 0).1
  let s4 := (receivedMain 999 s3 999 1 4).1
  let s5 := (paidMain 999 s4 7 "ann" 500 5 0).1
  (paidMain 999 s5 8 "bob" 200 8 1).1

/-- Firestore state for C8: client 7 is readable with one unreadable order
document and one unreadable payment document among readable ones; the client
document at path 8 is unreadable; one pending claim is readable and one
unreadable. -/
def fsC8 : FS :=
  ⟨[⟨7, some ⟨7, "ann", 1⟩,
      [some ⟨7, "coffee", "Coffee", 1, 250, 250, 1⟩, none,
       some ⟨7, "tea", "Tea", 1, 200, 200, 2⟩],
      [some ⟨7, "ann", 300, true, 4, 3⟩, none]⟩,
    ⟨8, none, [], []⟩],
   [some ⟨20, 9, "cat", 100, 6, true⟩, none], 21⟩

/-! ## Claim theorems -/

/-- C1: the claim says the balance query returns exactly the sum of lineTotal
over the client's orders minus the sum of amount over their confirmed
payments.  The SQL variant violates it: its query joins `orders` with
`payments` on `user_id`, so after two $2.50 coffee orders and one confirmed
$2.50 payment it reports a balance of $0.00 where the ledger sums give $2.50
due.  The Firestore variant sums the two collections separately and agrees
with the ledger sums on the same scenario. -/
theorem C1_sql_balance_join_bug :
    balance05 dbC1 7 = 0 ∧ specBalance dbC1 7 = 250 ∧ balanceMain fsC1 7 = 250 := by
  decide

/-- C2: the claim says N concurrent confirmations of a one-entry queue append
exactly one PaymentEntry, the losers failing.  Under the schedule where two
confirmations both read the pending listing before either commits, both
commits append a PaymentEntry (the second delete silently removes nothing)
and both report success, in the SQL variant and in the Firestore variant
alike. -/
theorem C2_concurrent_confirm_double_append :
    raceResult05.1.payments.length = 2 ∧
    raceResult05.1.pending = [] ∧
    raceResult05.2 = .confirmedPayment 500 "ann" ∧
    ((paymentsOf raceResultMain.1 7).filterMap id).length = 2 ∧
    raceResultMain.1.pending = [] ∧
    raceResultMain.2 = .confirmedPayment 500 "ann" := by
  decide

/-- C3: the claim says every position ≤ 0 fails with an index error and
causes no write.  The SQL variant turns position 0 into Python index −1,
which selects the *last* pending entry: with one live claim, `/received 0`
appends a PaymentEntry and empties the queue instead of failing.  The
Firestore variant guards `payment_index < 0` and leaves the state unchanged
on the same input. -/
theorem C3_position_zero_confirms :
    (received05 999 dbC2 999 0 9).1.payments.length = 1 ∧
    (received05 999 dbC2 999 0 9).1.pending = [] ∧
    (received05 999 dbC2 999 0 9).2 = .confirmedPayment 500 "ann" ∧
    receivedMain 999 fsC2 999 0 9 = (fsC2, .invalidNumber) := by
  decide

/-- C6 (counterexample): the claim says a limited listing consists of the k
oldest live claims.  With eleven live claims whose document-id order differs
from claim-time order, the confirm view's `limit(10)`-then-sort listing shows
the claims submitted at times 2..11 and omits the oldest claim (time 1), so
it is not the ten oldest. -/
theorem C6_limited_listing_not_oldest :
    receivedListingMain fsC6 ≠ kOldestPending fsC6 10 ∧
    (kOldestPending fsC6 10).map (·.timestamp) = [1, 2, 3, 4, 5, 6, 7, 8, 9, 10] ∧
    (receivedListingMain fsC6).map (·.timestamp) = [2, 3, 4, 5, 6, 7, 8, 9, 10, 11] := by
  decide

/-- C6 (amended): every pending listing is ordered by claim time ascending
among the entries it returns; the unlimited listings return exactly the live
claims (a sorted permutation of the whole queue), while the limited confirm
view returns a sorted permutation of the first ten live claims in
document-id order — not necessarily the ten oldest. -/
theorem C6_listings_sorted_ascending (db : DB) (fs : FS) :
    List.Sorted pendLE (pendByCreated db) ∧
    (pendByCreated db).Perm db.pending ∧
    List.Sorted pendDocLE (pendingListingMain fs) ∧
    (pendingListingMain fs).Perm ((streamPendingMain fs).filterMap id) ∧
    List.Sorted pendDocLE (receivedListingMain fs) ∧
    (receivedListingMain fs).Perm (((streamPendingMain fs).take 10).filterMap id) :=
  ⟨List.sorted_insertionSort pendLE db.pending,
   List.perm_insertionSort pendLE db.pending,
   List.sorted_insertionSort pendDocLE _,
   List.perm_insertionSort pendDocLE _,
   List.sorted_insertionSort pendDocLE _,
   List.perm_insertionSort pendDocLE _⟩

/-- C7: the claim says confirming position i appends a PaymentEntry with the
claim's clientId and amount, carries the claim's submission timestamp as the
original-claim timestamp, removes that one queue entry and leaves everything
else unchanged.  With client 7's claim submitted at time 5 and confirmed at
time 9, the SQL variant writes `original_ts = NOW()` — time 9, discarding the
submission time — while matching the claim on the other fields and frame; the
Firestore variant carries the submission time 5 and satisfies the whole
property on the same scenario. -/
theorem C7_sql_drops_claim_timestamp :
    (confirmSnapshot05 dbC7).get? 0 = some ⟨2, 7, "ann", 500, 5⟩ ∧
    (received05 999 dbC7 999 1 9).1.payments = dbC7.payments ++ [⟨7, 500, true, 9, 9⟩] ∧
    (received05 999 dbC7 999 1 9).1.pending = [⟨3, 8, "bob", 200, 8⟩] ∧
    (received05 999 dbC7 999 1 9).1.orders = dbC7.orders ∧
    (received05 999 dbC7 999 1 9).1.clients = dbC7.clients ∧
    paymentsOf (receivedMain 999 fsC7 999 1 9).1 7 =
      paymentsOf fsC7 7 ++ [some ⟨7, "ann", 500, true, 9, 5⟩] ∧
    (receivedMain 999 fsC7 999 1 9).1.pending = [some ⟨3, 8, "bob", 200, 8, true⟩] ∧
    paymentsOf (receivedMain 999 fsC7 999 1 9).1 8 = paymentsOf fsC7 8 ∧
    ordersOf (receivedMain 999 fsC7 999 1 9).1 7 = ordersOf fsC7 7 ∧
    ordersOf (receivedMain 999 fsC7 999 1 9).1 8 = ordersOf fsC7 8 := by
  decide

/-- C8: the claim says one unreadable row is skipped and never aborts an
aggregate.  `main.py`'s balance and sales skip each unreadable row and
aggregate the rest, but `coreCMfunc04.sales_command` has no per-row guards:
the same state with one unreadable client document makes the whole sales
report abort into an error reply. -/
theorem C8_core04_sales_aborts_on_corrupt_row :
    balanceMain fsC8 7 = 150 ∧
    salesMain fsC8 = (450, 300, 100, [("Coffee", 1), ("Tea", 1)]) ∧
    sales04 fsC8 = none := by
  decide

/-- C5: an order whose quantity is zero or negative, or whose item code does
not resolve in the menu, is rejected with the corresponding validation reply
and performs no write: the database/Firestore state — orders and client
records included — is returned unchanged, in both variants. -/
theorem C5_order_validate_before_write (cmId uid : Int) (uname code : String)
    (qty : Int) (now : Nat) (db : DB) (fs : FS)
    (hcm : is_cm cmId uid = false)
    (hbad : qty ≤ 0 ∨ menuLookup code = none) :
    (order05 cmId db uid uname code qty now).1 = db ∧
    ((order05 cmId db uid uname code qty now).2 = .itemNotFound ∨
      (order05 cmId db uid uname code qty now).2 = .invalidQuantity) ∧
    (orderMain cmId fs uid uname code qty now).1 = fs ∧
    ((orderMain cmId fs uid uname code qty now).2 = .itemNotFound ∨
      (orderMain cmId fs uid uname code qty now).2 = .invalidQuantity) := by
  cases hlk : menuLookup code with
  | none => simp [order05, orderMain, hcm, hlk]
  | some v =>
    obtain ⟨n, p⟩ := v
    have hq : qty ≤ 0 := hbad.resolve_right (by simp [hlk])
    simp [order05, orderMain, hcm, hlk, hq]

/-- Witness for C5 at quantity 0, item "coffee", on the empty states. -/
theorem C5_order_validate_before_write_witness :
    (is_cm 999 7 = false) ∧ ((0 : Int) ≤ 0 ∨ menuLookup "coffee" = none) ∧
    ((order05 999 dbEmpty 7 "ann" "coffee" 0 0).1 = dbEmpty ∧
      ((order05 999 dbEmpty 7 "ann" "coffee" 0 0).2 = .itemNotFound ∨
        (order05 999 dbEmpty 7 "ann" "coffee" 0 0).2 = .invalidQuantity) ∧
      (orderMain 999 fsEmpty 7 "ann" "coffee" 0 0).1 = fsEmpty ∧
      ((orderMain 999 fsEmpty 7 "ann" "coffee" 0 0).2 = .itemNotFound ∨
        (orderMain 999 fsEmpty 7 "ann" "coffee" 0 0).2 = .invalidQuantity)) :=
  ⟨by decide, Or.inl (by decide),
   C5_order_validate_before_write 999 7 "ann" "coffee" 0 0 dbEmpty fsEmpty
     (by decide) (Or.inl (by decide))⟩

/-- C9: a caller for whom `is_cm` holds is refused by the order and paid
handlers with an informational reply, and neither ledger nor queue is
written: the state is returned unchanged, in both variants. -/
theorem C9_manager_order_and_paid_refused (cmId uid : Int) (uname code : String)
    (qty amt : Int) (now : Nat) (slot : Nat) (db : DB) (fs : FS)
    (h : is_cm cmId uid = true) :
    order05 cmId db uid uname code qty now = (db, .managersDontOrder) ∧
    paid05 cmId db uid uname amt now = (db, .useReceived) ∧
    orderMain cmId fs uid uname code qty now = (fs, .managersDontOrder) ∧
    paidMain cmId fs uid uname amt now slot = (fs, .useReceived) := by
  simp [order05, paid05, orderMain, paidMain, h]

/-- Witness for C9: the manager (id 999) calling order and paid on the empty
states. -/
theorem C9_manager_order_and_paid_refused_witness :
    (is_cm 999 999 = true) ∧
    (order05 999 dbEmpty 999 "cm" "coffee" 1 0 = (dbEmpty, .managersDontOrder) ∧
      paid05 999 dbEmpty 999 "cm" 100 0 = (dbEmpty, .useReceived) ∧
      orderMain 999 fsEmpty 999 "cm" "coffee" 1 0 = (fsEmpty, .managersDontOrder) ∧
      paidMain 999 fsEmpty 999 "cm" 100 0 0 = (fsEmpty, .useReceived)) :=
  ⟨by decide,
   C9_manager_order_and_paid_refused 999 999 "cm" "coffee" 1 100 0 0 dbEmpty fsEmpty
     (by decide)⟩

/-- C10: a non-manager who supplies any explicit user-id argument to the
balance or summary query is refused, and the refusal is the same whatever the
stored data (the state is universally quantified), so no stored data
influences — or is needed for — the reply, in both variants. -/
theorem C10_non_manager_own_data_only (cmId uid : Int) (args : List Int)
    (db : DB) (fs : FS)
    (hcm : is_cm cmId uid = false) (ha : args ≠ []) :
    balanceCmdMain cmId fs uid args = .ownOnly ∧
    summaryCmdMain cmId fs uid args = .ownOnly ∧
    balanceCmd05 cmId db uid args = .ownOnly := by
  cases args with
  | nil => exact absurd rfl ha
  | cons a as => simp [balanceCmdMain, summaryCmdMain, balanceCmd05, hcm]

/-- Witness for C10: non-manager 7 passing an explicit target id 8. -/
theorem C10_non_manager_own_data_only_witness :
    (is_cm 999 7 = false) ∧ ([(8 : Int)] ≠ []) ∧
    (balanceCmdMain 999 fsEmpty 7 [8] = .ownOnly ∧
      summaryCmdMain 999 fsEmpty 7 [8] = .ownOnly ∧
      balanceCmd05 999 dbEmpty 7 [8] = .ownOnly) :=
  ⟨by decide, by decide,
   C10_non_manager_own_data_only 999 7 [8] dbEmpty fsEmpty (by decide) (by decide)⟩

end CMBot

